import Mathlib

/-!
Verification development for the TelegramChannel trading-signal repository.

Shallow embedding of the algorithmic core:
* `src/src/services/position_manager.py` — managed positions, take-profit
  ladder, stop-loss ratchet, partial-close bookkeeping;
* `src/src/bot.py` (`monitor_position`) — one polling cycle applying the
  emitted actions against an execution oracle;
* `src/signal_parser.py` (`parse_signal`) and
  `src/src/services/signal_parser.py` (`_extract_take_profits`) —
  take-profit label extraction (the regex search is embedded as an
  explicit character scanner);
* `src/order_manager.py` (`decide_order`) — order decision;
* `src/risk_manager.py` / `src/src/services/risk_manager.py` — position
  sizing and order validation;
* `src/src/services/order_service.py` — signal-to-order conversion.

Python `float`/`Decimal` values are modelled as `ℚ`; `None` as `Option`;
Python truthiness of a numeric optional (`if x:`) is "present and nonzero".
Wall-clock timestamps are modelled as an explicit `ℕ` input.
-/

namespace TelegramChannel

/-- Trade direction, from `src/src/domain/models.py` (`TradeSide`). -/
inductive TradeSide where
  | buy
  | sell
deriving DecidableEq, Repr

/-- Order execution type, from `src/src/domain/models.py` (`OrderType`);
only the two constructors produced by the decision logic are needed. -/
inductive OrderType where
  | market
  | limit
deriving DecidableEq, Repr

/-- A tracked position, from `ManagedPosition` in
`src/src/services/position_manager.py` (the `created_at`/`metadata`
bookkeeping fields carry no algorithmic content and are omitted). -/
structure ManagedPosition where
  position_id : String
  symbol : String
  side : TradeSide
  entry_price : ℚ
  initial_volume : ℚ
  remaining_volume : ℚ
  stop_loss : ℚ
  take_profits : List ℚ
  tp_hit_count : ℕ
deriving DecidableEq, Repr

namespace ManagedPosition

/-- `TP_PERCENTAGES = [0.40, 0.30, 0.30]` from `ManagedPosition`. -/
def TP_PERCENTAGES : List ℚ := [40/100, 30/100, 30/100]

/-- `ManagedPosition.get_volume_for_tp_level`: if the 0-based level is past
the percentage table, return the remaining volume, otherwise the fixed
percentage of the initial volume. -/
def get_volume_for_tp_level (pos : ManagedPosition) (level : ℕ) : ℚ :=
  if TP_PERCENTAGES.length ≤ level then
    pos.remaining_volume
  else
    pos.initial_volume * (TP_PERCENTAGES.getD level 0)

/-- `ManagedPosition.get_next_stop_loss`: level 0 moves the stop to entry,
level 1 moves it to the first take-profit (falling back to entry when the
list is empty), any higher level yields no new stop. -/
def get_next_stop_loss (pos : ManagedPosition) (tp_level : ℕ) : Option ℚ :=
  if tp_level = 0 then
    some pos.entry_price
  else if tp_level = 1 then
    some (pos.take_profits.headD pos.entry_price)
  else
    none

/-- `ManagedPosition.mark_tp_hit`: `tp_hit_count = max(tp_hit_count, tp_level + 1)`. -/
def mark_tp_hit (pos : ManagedPosition) (tp_level : ℕ) : ManagedPosition :=
  { pos with tp_hit_count := max pos.tp_hit_count (tp_level + 1) }

end ManagedPosition

/-- Hit test from `PositionManager.check_tp_hits`: for BUY the target is hit
when price ≥ target, for SELL when price ≤ target. -/
def isHit (side : TradeSide) (current_price tp_price : ℚ) : Bool :=
  match side with
  | .buy => decide (tp_price ≤ current_price)
  | .sell => decide (current_price ≤ tp_price)

/-- One emitted action `(tp_level, tp_price, volume_to_close, new_sl)`. -/
structure TpAction where
  tp_level : ℕ
  tp_price : ℚ
  volume_to_close : ℚ
  new_sl : Option ℚ
deriving DecidableEq, Repr

/-- `PositionManager.check_tp_hits` for one looked-up position: enumerate
the take-profit list, skip indices already counted as hit, and emit an
action for every remaining index whose target the current price reached. -/
def check_tp_hits (pos : ManagedPosition) (current_price : ℚ) : List TpAction :=
  pos.take_profits.enum.filterMap (fun p =>
    if p.1 < pos.tp_hit_count then
      none
    else if isHit pos.side current_price p.2 then
      some ⟨p.1, p.2, pos.get_volume_for_tp_level p.1, pos.get_next_stop_loss p.1⟩
    else
      none)

/-- `PositionManager.update_after_partial_close` acting on the tracking
entry for one position id (`none` = not tracked): mark the level hit,
subtract the closed volume, store the new stop when one is given, and drop
the position once the remaining volume is within the 0.001 tolerance. -/
def update_after_partial_close (st : Option ManagedPosition) (tp_level : ℕ)
    (closed_volume : ℚ) (new_sl : Option ℚ) : Option ManagedPosition :=
  match st with
  | none => none
  | some pos =>
    let pos : ManagedPosition := pos.mark_tp_hit tp_level
    let pos : ManagedPosition :=
      { pos with remaining_volume := pos.remaining_volume - closed_volume }
    let pos : ManagedPosition :=
      match new_sl with
      | some sl => { pos with stop_loss := sl }
      | none => pos
    if pos.remaining_volume ≤ 1/1000 then none else some pos

/-- One polling cycle of `TradingBot.monitor_position` in `src/src/bot.py`
for a given current price: compute the action list once, then for each
action call the execution collaborator (modelled by the oracle `exec`,
indexed by take-profit level); only a successful partial close applies
`update_after_partial_close` (the emitted new stop is stored regardless of
whether the separate stop-modification call succeeded). -/
def monitorCycle (st : Option ManagedPosition) (current_price : ℚ)
    (ex : ℕ → Bool) : Option ManagedPosition :=
  match st with
  | none => none
  | some pos =>
    (check_tp_hits pos current_price).foldl
      (fun acc act =>
        if ex act.tp_level then
          update_after_partial_close acc act.tp_level act.volume_to_close act.new_sl
        else
          acc)
      (some pos)

/-- A sequence of `update_after_partial_close` calls applied in order. -/
def applyCloses (st : Option ManagedPosition)
    (ops : List (ℕ × ℚ × Option ℚ)) : Option ManagedPosition :=
  ops.foldl (fun acc op => update_after_partial_close acc op.1 op.2.1 op.2.2) st

/-- Total closed volume of a sequence of partial-close operations. -/
def closedSum (ops : List (ℕ × ℚ × Option ℚ)) : ℚ :=
  (ops.map (fun op => op.2.1)).sum

/-! ## Signal parsing: take-profit label extraction

`parse_signal` in `src/signal_parser.py` runs, for each index i ∈ 1..4,
`re.search(rf'Tp{i}[\s:\-]*([0-9]+(?:\.[0-9]+)?|open)', t, re.I)` and stores
`res[f'tp{i}'] = None if val == 'open' else Decimal(val)` when a match is
found, leaving the key absent otherwise.  The regex search is embedded as a
leftmost character scanner: the character class `[\s:\-]*` is disjoint from
the first characters of both alternatives of the capture group, so greedy
scanning needs no backtracking. -/

/-- The per-character digit translation table of `normalize_digits`
(Eastern Arabic-Indic U+0660..U+0669 and extended Arabic-Indic
U+06F0..U+06F9 map to ASCII digits). -/
def normalizeDigitChar (c : Char) : Char :=
  if 1776 ≤ c.toNat ∧ c.toNat ≤ 1785 then Char.ofNat (48 + (c.toNat - 1776))
  else if 1632 ≤ c.toNat ∧ c.toNat ≤ 1641 then Char.ofNat (48 + (c.toNat - 1632))
  else c

/-- Python `\s` on str patterns (CPython `Py_UNICODE_ISSPACE`): the ASCII
whitespace range 09-0D, the separators 1C-1F, space, NEL (85), NBSP (A0),
Ogham space (1680), the Unicode spaces 2000-200A, the line and paragraph
separators 2028/2029, narrow NBSP (202F), medium mathematical space
(205F), and ideographic space (3000). -/
def isPySpace (c : Char) : Bool :=
  decide ((9 ≤ c.toNat ∧ c.toNat ≤ 13) ∨ (28 ≤ c.toNat ∧ c.toNat ≤ 31) ∨
    c.toNat = 32 ∨ c.toNat = 133 ∨ c.toNat = 160 ∨ c.toNat = 5760 ∨
    (8192 ≤ c.toNat ∧ c.toNat ≤ 8202) ∨ c.toNat = 8232 ∨ c.toNat = 8233 ∨
    c.toNat = 8239 ∨ c.toNat = 8287 ∨ c.toNat = 12288)

/-- Membership in the regex character class `[\s:\-]` (Unicode whitespace,
colon, hyphen). -/
def isSepChar (c : Char) : Bool :=
  isPySpace c || c = ':' || c = '-'

/-- Match the capture group `([0-9]+(?:\.[0-9]+)?|open)` at the head of the
character list, returning the matched text. -/
def matchGroup (cs : List Char) : Option (List Char) :=
  match cs with
  | [] => none
  | c :: _ =>
    if c.isDigit then
      let ip := cs.takeWhile Char.isDigit
      match cs.dropWhile Char.isDigit with
      | '.' :: r2 =>
        match r2 with
        | d :: _ =>
          if d.isDigit then some (ip ++ '.' :: r2.takeWhile Char.isDigit)
          else some ip
        | [] => some ip
      | _ => some ip
    else
      match cs with
      | a :: b :: e :: d :: _ =>
        if a.toLower = 'o' ∧ b.toLower = 'p' ∧ e.toLower = 'e' ∧ d.toLower = 'n'
        then some [a, b, e, d]
        else none
      | _ => none

/-- Match the full pattern `Tp<i>[\s:\-]*(<group>)` anchored at the head of
the character list (case-insensitive label), returning the group text. -/
def matchTpAt (i : ℕ) (cs : List Char) : Option (List Char) :=
  match cs with
  | t :: p :: d :: rest =>
    if t.toLower = 't' ∧ p.toLower = 'p' ∧ d = Char.ofNat (48 + i) then
      matchGroup (rest.dropWhile (fun c => isSepChar c))
    else
      none
  | _ => none

/-- Leftmost search for the take-profit pattern, as `re.search` does:
try every start position from the left, returning the first group match. -/
def tpSearch (i : ℕ) : List Char → Option (List Char)
  | [] => none
  | c :: rest =>
    match matchTpAt i (c :: rest) with
    | some g => some g
    | none => tpSearch i rest

/-- Decimal digit-string to natural number. -/
def natOfDigits (ds : List Char) : ℕ :=
  ds.foldl (fun a c => 10 * a + (c.toNat - 48)) 0

/-- Value of a matched decimal literal (`Decimal(val)` in the source):
integer part, optionally a dot and a fractional part. -/
def decValue (g : List Char) : ℚ :=
  let ip := g.takeWhile Char.isDigit
  match g.dropWhile Char.isDigit with
  | _ :: fs => (natOfDigits ip : ℚ) + (natOfDigits fs : ℚ) / (10 : ℚ) ^ fs.length
  | [] => (natOfDigits ip : ℚ)

/-- The `tp<i>` entry computed by `parse_signal` on the digit-normalized
text: `none` = key absent (label not found), `some none` = key present and
null (label followed by "open"), `some (some v)` = numeric entry. -/
def extract_tp (text : String) (i : ℕ) : Option (Option ℚ) :=
  match tpSearch i (text.data.map normalizeDigitChar) with
  | none => none
  | some g =>
    let val := g.map Char.toLower
    if val = ['o', 'p', 'e', 'n'] then some none
    else some (some (decValue val))

/-- One loop iteration of `SignalParser._extract_take_profits` in
`src/src/services/signal_parser.py`: the same regex search, but `None` is
appended both when the matched group is "open" and when no label is found
at all, so the two cases are indistinguishable in the result. -/
def extract_tp_service (text : String) (i : ℕ) : Option ℚ :=
  match tpSearch i (text.data.map normalizeDigitChar) with
  | none => none
  | some g =>
    let val := g.map Char.toLower
    if val = ['o', 'p', 'e', 'n'] then none
    else some (decValue val)

/-- `SignalParser._extract_take_profits`: one entry per index 1..4. -/
def extract_take_profits (text : String) : List (Option ℚ) :=
  [1, 2, 3, 4].map (extract_tp_service text)

/-- Python `str.lower`, modelled character-wise. -/
def strLower (s : String) : String :=
  ⟨s.data.map Char.toLower⟩

/-- Python slicing `s[:n]`, modelled character-wise. -/
def strTake (s : String) (n : ℕ) : String :=
  ⟨s.data.take n⟩

/-! ## Order decision: `decide_order` in `src/order_manager.py` -/

/-- The parsed-signal dictionary of `parse_signal`, restricted to the keys
`decide_order` reads.  A tp entry is `Option (Option ℚ)`: outer `none` =
key absent, `some none` = explicit null ("open"). -/
structure ParsedSignal where
  symbol : Option String
  market_price : Option ℚ
  buy_range : Option (ℚ × ℚ)
  sell_range : Option (ℚ × ℚ)
  sl : Option ℚ
  tp1 : Option (Option ℚ)
  tp2 : Option (Option ℚ)
  tp3 : Option (Option ℚ)
  tp4 : Option (Option ℚ)
  side : Option String
deriving DecidableEq, Repr

/-- The executable-order dictionary returned by `decide_order`. -/
structure OrderDict where
  symbol : String
  type : String
  price : Option ℚ
  volume : ℚ
  sl : Option ℚ
  tps : List ℚ
  side : String
deriving DecidableEq, Repr

/-- `decide_order` from `src/order_manager.py`: raises (`Except.error`)
when no symbol was detected; picks market-at-price when a market price lies
inside the buy range, limit-at-midpoint when a buy range exists otherwise,
and market-at-market-price (possibly absent) when there is no buy range;
numeric fields pass through Python truthiness (`x if x else None`). -/
def decide_order (parsed : ParsedSignal) : Except String OrderDict :=
  match parsed.symbol with
  | none => .error "No symbol detected"
  | some sym =>
    if sym = "" then .error "No symbol detected"
    else
      let tps : List ℚ :=
        [parsed.tp1, parsed.tp2, parsed.tp3, parsed.tp4].filterMap
          (fun o =>
            match o with
            | some (some v) => if v = 0 then none else some v
            | _ => none)
      let tyPrice : String × Option ℚ :=
        match parsed.buy_range with
        | some (low, high) =>
          match parsed.market_price with
          | some m =>
            if m ≠ 0 ∧ low ≤ m ∧ m ≤ high then ("market", some m)
            else ("limit", some ((low + high) / 2))
          | none => ("limit", some ((low + high) / 2))
        | none => ("market", parsed.market_price)
      let priceOut : Option ℚ :=
        match tyPrice.2 with
        | some p => if p = 0 then none else some p
        | none => none
      let slOut : Option ℚ :=
        match parsed.sl with
        | some p => if p = 0 then none else some p
        | none => none
      .ok
        { symbol := sym
          type := tyPrice.1
          price := priceOut
          volume := 1/100
          sl := slOut
          tps := tps
          side := strLower (parsed.side.getD "buy") }

/-! ## Risk manager

`RiskManager.calculate_position_size` exists in two copies,
`src/risk_manager.py` and `src/src/services/risk_manager.py`; they compute
the same function (the services copy reads the per-pip value from a symbol
table keyed with "XAUUSD" and guards it against non-positive values, the
top-level copy hardcodes the same constant 10.0).  The embedding follows
the services copy. -/

/-- Risk configuration parameters (constructor defaults of the top-level
`RiskManager`: balance 10000, risk 1%, volumes 0.01/1.0/0.01). -/
structure RiskConfig where
  account_balance : ℚ
  risk_percent : ℚ
  min_volume : ℚ
  max_volume : ℚ
  default_volume : ℚ
deriving DecidableEq, Repr

/-- Round-half-to-even to an integer, modelling Python `round` on the
(here exactly represented) value. -/
def roundHalfEven (x : ℚ) : ℤ :=
  if x - ⌊x⌋ < 1/2 then ⌊x⌋
  else if 1/2 < x - ⌊x⌋ then ⌊x⌋ + 1
  else if ⌊x⌋ % 2 = 0 then ⌊x⌋ else ⌊x⌋ + 1

/-- `round(x, 2)`: round to two decimal places. -/
def round2 (x : ℚ) : ℚ :=
  (roundHalfEven (x * 100) : ℚ) / 100

/-- `RiskManager._get_pip_value_per_lot`: static per-symbol table with a
generic fallback of 10. -/
def pip_value_per_lot (symbol : String) : ℚ :=
  if symbol = "XAUUSD" then 10
  else if symbol = "EURUSD" then 10
  else if symbol = "GBPUSD" then 10
  else if symbol = "USDJPY" then 909/100
  else 10

/-- `RiskManager.calculate_position_size`.  Python truthiness makes a
missing or zero entry/stop (and equal prices) fall back to the default
volume; a stop distance under the 0.0001 epsilon likewise; otherwise the
risk amount is divided by pip distance times per-pip value, clamped into
[min_volume, max_volume] and rounded to two decimals. -/
def calculate_position_size (cfg : RiskConfig) (entry_price stop_loss : Option ℚ)
    (pip_value : ℚ) : ℚ :=
  match entry_price, stop_loss with
  | some e, some s =>
    if e = 0 ∨ s = 0 ∨ e = s then cfg.default_volume
    else
      let risk_amount := cfg.account_balance * (cfg.risk_percent / 100)
      let sl_distance := |e - s|
      if sl_distance < 1/10000 then cfg.default_volume
      else
        let pip_distance := sl_distance / pip_value
        let value_per_pip := pip_value_per_lot "XAUUSD"
        if value_per_pip ≤ 0 then cfg.default_volume
        else
          let position_size := risk_amount / (pip_distance * value_per_pip)
          let clamped := max cfg.min_volume (min cfg.max_volume position_size)
          round2 clamped
  | _, _ => cfg.default_volume

/-- Rejection reasons of the two validators (the source formats message
strings; only their identity matters here). -/
inductive RejectReason where
  | volume_below_min
  | volume_above_max
  | stop_too_tight
deriving DecidableEq, Repr

/-- `RiskManager.validate_trade` from `src/risk_manager.py`: reject volume
outside [min_volume, max_volume]; when price and stop-loss are both truthy
(present and nonzero), reject a stop distance under 0.01. -/
def validate_trade (cfg : RiskConfig) (order : OrderDict) :
    Bool × Option RejectReason :=
  if order.volume < cfg.min_volume then (false, some .volume_below_min)
  else if cfg.max_volume < order.volume then (false, some .volume_above_max)
  else
    match order.price, order.sl with
    | some p, some s =>
      if p ≠ 0 ∧ s ≠ 0 then
        if |p - s| < 1/100 then (false, some .stop_too_tight)
        else (true, none)
      else (true, none)
    | _, _ => (true, none)

/-! ## Services pipeline: `Signal`, `Order`, `OrderService` -/

/-- `Signal` from `src/src/domain/models.py` (datetime modelled as ℕ). -/
structure Signal where
  symbol : Option String
  market_price : Option ℚ
  buy_range : Option (ℚ × ℚ)
  sell_range : Option (ℚ × ℚ)
  take_profits : List (Option ℚ)
  stop_loss : Option ℚ
  pip_count : Option ℕ
  side : Option TradeSide
  raw_message : String
  timestamp : ℕ
deriving DecidableEq, Repr

/-- `Signal.is_valid`: symbol and side set, and at least one of market
price / buy range / sell range set. -/
def Signal.is_valid (s : Signal) : Bool :=
  s.symbol.isSome && s.side.isSome &&
    (s.market_price.isSome || s.buy_range.isSome || s.sell_range.isSome)

/-- Range-midpoint fallback of `Signal.get_entry_price`: midpoint of the
buy range for a buy side, of the sell range for a sell side. -/
def Signal.entryFromRanges (s : Signal) : Option ℚ :=
  match s.side, s.buy_range with
  | some .buy, some (a, b) => some ((a + b) / 2)
  | _, _ =>
    match s.side, s.sell_range with
    | some .sell, some (a, b) => some ((a + b) / 2)
    | _, _ => none

/-- `Signal.get_entry_price`: a truthy market price, else the midpoint of
the range matching the side. -/
def Signal.get_entry_price (s : Signal) : Option ℚ :=
  match s.market_price with
  | some m =>
    if m ≠ 0 then some m
    else Signal.entryFromRanges s
  | none => Signal.entryFromRanges s

/-- `Order` from `src/src/domain/models.py`, restricted to the fields the
order service populates (status/order_id/filled_volume keep their
constructor defaults and are never read here); `metadata` is the triple
written by `create_order_from_signal`. -/
structure Order where
  symbol : Option String
  side : Option TradeSide
  order_type : OrderType
  volume : ℚ
  price : Option ℚ
  stop_loss : Option ℚ
  take_profits : List ℚ
  timestamp : ℕ
  meta_signal_timestamp : ℕ
  meta_pip_count : Option ℕ
  meta_raw_message : String
deriving DecidableEq, Repr

/-- `RiskManager.validate_order` from `src/src/services/risk_manager.py`:
rejects only volume outside [min_volume, max_volume]; the stop-loss checks
merely log warnings. -/
def validate_order (cfg : RiskConfig) (o : Order) : Bool × Option RejectReason :=
  if o.volume < cfg.min_volume then (false, some .volume_below_min)
  else if cfg.max_volume < o.volume then (false, some .volume_above_max)
  else (true, none)

/-- Last-resort branch of `_determine_order_type_and_price`: limit at a
truthy `get_entry_price`, else market with no price. -/
def fallbackEntry (s : Signal) : OrderType × Option ℚ :=
  match s.get_entry_price with
  | some e => if e ≠ 0 then (.limit, some e) else (.market, none)
  | none => (.market, none)

/-- `OrderService._determine_order_type_and_price`: market at a truthy
market price inside the side range, else limit at the range midpoint, else
market at a truthy market price, else limit at `get_entry_price` when
truthy, else market with no price. -/
def determine_order_type_and_price (s : Signal) : OrderType × Option ℚ :=
  let trade_range :=
    match s.side with
    | some .buy => s.buy_range
    | some .sell => s.sell_range
    | none => none
  match trade_range with
  | some (low, high) =>
    match s.market_price with
    | some m =>
      if m ≠ 0 ∧ low ≤ m ∧ m ≤ high then (.market, some m)
      else (.limit, some ((low + high) / 2))
    | none => (.limit, some ((low + high) / 2))
  | none =>
    match s.market_price with
    | some m =>
      if m ≠ 0 then (.market, some m)
      else fallbackEntry s
    | none => fallbackEntry s

/-- `OrderService.create_order_from_signal` (`src/src/services/order_service.py`).
Returns `Except.ok none` for an invalid signal or a failed validation,
`Except.error ()` on the `TypeError` the final success log raises when the
order has no price (formatting `order.price` with `:.2f`), and otherwise
the created order.  The wall-clock timestamp the `Order` dataclass stamps
on construction is the explicit input `now`. -/
def create_order_from_signal (cfg : RiskConfig) (pip_size : ℚ) (s : Signal)
    (now : ℕ) : Except Unit (Option Order) :=
  if ¬ s.is_valid then .ok none
  else
    let tyPrice := determine_order_type_and_price s
    let entry_price_float : Option ℚ :=
      match tyPrice.2 with
      | some p => if p = 0 then none else some p
      | none => none
    let stop_loss_float : Option ℚ :=
      match s.stop_loss with
      | some p => if p = 0 then none else some p
      | none => none
    let volume := calculate_position_size cfg entry_price_float stop_loss_float pip_size
    let take_profits := s.take_profits.filterMap id
    let order : Order :=
      { symbol := s.symbol
        side := s.side
        order_type := tyPrice.1
        volume := volume
        price := entry_price_float
        stop_loss := stop_loss_float
        take_profits := take_profits
        timestamp := now
        meta_signal_timestamp := s.timestamp
        meta_pip_count := s.pip_count
        meta_raw_message := strTake s.raw_message 100 }
    if (validate_order cfg order).1 = false then .ok none
    else
      match order.price with
      | none => .error ()
      | some _ => .ok (some order)

/-- An order with its wall-clock creation timestamp normalized away. -/
def eraseTimestamp (o : Order) : Order :=
  { o with timestamp := 0 }

/-! ## Concrete inputs used below -/

/-- The constructor defaults of the top-level `RiskManager`:
balance 10000, risk 1%, min 0.01, max 1.0, default 0.01. -/
def cfgDefault : RiskConfig :=
  { account_balance := 10000
    risk_percent := 1
    min_volume := 1/100
    max_volume := 1
    default_volume := 1/100 }

/-- A freshly added managed position: three take-profit targets, nothing
hit yet, remaining volume equal to the initial volume. -/
def posA : ManagedPosition :=
  { position_id := "pos-1"
    symbol := "XAUUSD"
    side := .buy
    entry_price := 5
    initial_volume := 1
    remaining_volume := 1
    stop_loss := 1
    take_profits := [10, 20, 30]
    tp_hit_count := 0 }

/-- A fresh two-target position used in the retry counterexample. -/
def posB : ManagedPosition :=
  { position_id := "pos-2"
    symbol := "XAUUSD"
    side := .buy
    entry_price := 5
    initial_volume := 1
    remaining_volume := 1
    stop_loss := 1
    take_profits := [10, 20]
    tp_hit_count := 0 }

/-- Execution oracle: the partial close at take-profit level 0 fails,
the one at level 1 succeeds. -/
def exFail0 : ℕ → Bool := fun l => decide (l = 1)

/-- A parsed-signal dictionary carrying only a symbol: no market price,
no ranges, no levels. -/
def parsedBare : ParsedSignal :=
  { symbol := some "XAUUSD"
    market_price := none
    buy_range := none
    sell_range := none
    sl := none
    tp1 := none, tp2 := none, tp3 := none, tp4 := none
    side := none }

/-- An order dictionary whose price (0.005) and stop-loss (0) are both
present with a gap below the 0.01 tightness threshold, and whose volume is
inside the configured bounds. -/
def orderZeroSl : OrderDict :=
  { symbol := "XAUUSD"
    type := "market"
    price := some (1/200)
    volume := 1/2
    sl := some 0
    tps := []
    side := "buy" }

/-- An order dictionary with nonzero price and stop-loss 0.005 apart. -/
def orderTight : OrderDict :=
  { symbol := "XAUUSD"
    type := "market"
    price := some 100
    volume := 1/2
    sl := some (20001/200)
    tps := []
    side := "buy" }

/-- A fully populated valid buy signal (market price inside the range). -/
def sigBuy : Signal :=
  { symbol := some "XAUUSD"
    market_price := some 2682
    buy_range := some (2680, 2685)
    sell_range := none
    take_profits := [some 2690, some 2700]
    stop_loss := some 2670
    pip_count := none
    side := some .buy
    raw_message := "sig"
    timestamp := 0 }

/-- `posB` after the cycle at price 25 in which the level-0 close failed
and the level-1 close succeeded. -/
def posB_afterCycle : ManagedPosition :=
  { position_id := "pos-2", symbol := "XAUUSD", side := .buy, entry_price := 5,
    initial_volume := 1, remaining_volume := 7/10, stop_loss := 10,
    take_profits := [10, 20], tp_hit_count := 2 }

/-- Two successive partial-close operations for `posB`. -/
def opsB : List (ℕ × ℚ × Option ℚ) := [(0, 2/5, some 5), (1, 3/10, some 10)]

/-- `posB` after applying both operations of `opsB`. -/
def posB_afterOps : ManagedPosition :=
  { position_id := "pos-2", symbol := "XAUUSD", side := .buy, entry_price := 5,
    initial_volume := 1, remaining_volume := 3/10, stop_loss := 10,
    take_profits := [10, 20], tp_hit_count := 2 }

/-- `posB` after a successful level-0 close with new stop 5. -/
def posB_afterTp0 : ManagedPosition :=
  { position_id := "pos-2", symbol := "XAUUSD", side := .buy, entry_price := 5,
    initial_volume := 1, remaining_volume := 3/5, stop_loss := 5,
    take_profits := [10, 20], tp_hit_count := 1 }

/-- `posB` after a level-0 close carrying no new stop. -/
def posB_afterTp0NoSl : ManagedPosition :=
  { position_id := "pos-2", symbol := "XAUUSD", side := .buy, entry_price := 5,
    initial_volume := 1, remaining_volume := 3/5, stop_loss := 1,
    take_profits := [10, 20], tp_hit_count := 1 }

/-- An order dictionary whose volume 2 exceeds the default maximum 1. -/
def orderBigVolume : OrderDict :=
  { symbol := "X", type := "market", price := none,
    volume := 2, sl := none, tps := [], side := "buy" }

/-- The order `create_order_from_signal` builds from `sigBuy` when the
clock reads `t`. -/
def orderBuyAt (t : ℕ) : Order :=
  { symbol := some "XAUUSD", side := some .buy, order_type := .market,
    volume := 1/100, price := some 2682, stop_loss := some 2670,
    take_profits := [2690, 2700], timestamp := t,
    meta_signal_timestamp := 0, meta_pip_count := none, meta_raw_message := "sig" }

end TelegramChannel

/-! ## Helper lemmas -/

namespace TelegramChannel

lemma floor_le_roundHalfEven (x : ℚ) : ⌊x⌋ ≤ roundHalfEven x := by
  unfold roundHalfEven
  split_ifs <;> omega

lemma roundHalfEven_le_of_le {x : ℚ} {k : ℤ} (h : x ≤ (k : ℚ)) :
    roundHalfEven x ≤ k := by
  have hfl : ⌊x⌋ ≤ k := by
    calc ⌊x⌋ ≤ ⌊(k : ℚ)⌋ := Int.floor_mono h
    _ = k := Int.floor_intCast k
  have hfloor : ((⌊x⌋ : ℤ) : ℚ) ≤ x := Int.floor_le x
  unfold roundHalfEven
  split_ifs with h1 h2 h3
  · exact hfl
  · have hne : ⌊x⌋ ≠ k := by
      intro he
      have : x - ((⌊x⌋ : ℤ) : ℚ) ≤ 0 := by rw [he]; linarith
      linarith
    omega
  · exact hfl
  · have hge : (1 : ℚ)/2 ≤ x - ⌊x⌋ := le_of_not_lt h1
    have hne : ⌊x⌋ ≠ k := by
      intro he
      have : x - ((⌊x⌋ : ℤ) : ℚ) ≤ 0 := by rw [he]; linarith
      linarith
    omega

lemma le_roundHalfEven_of_le {x : ℚ} {k : ℤ} (h : (k : ℚ) ≤ x) :
    k ≤ roundHalfEven x := by
  have h1 : k ≤ ⌊x⌋ := Int.le_floor.2 h
  have h2 := floor_le_roundHalfEven x
  omega

lemma round2_mem_of_mem {a b x : ℚ} {ka kb : ℤ}
    (ha : a = (ka : ℚ) / 100) (hb : b = (kb : ℚ) / 100)
    (hax : a ≤ x) (hxb : x ≤ b) : a ≤ round2 x ∧ round2 x ≤ b := by
  have h1 : (ka : ℚ) ≤ x * 100 := by rw [ha] at hax; linarith
  have h2 : x * 100 ≤ (kb : ℚ) := by rw [hb] at hxb; linarith
  have hlo := le_roundHalfEven_of_le h1
  have hhi := roundHalfEven_le_of_le h2
  constructor
  · rw [ha, round2]
    have : (ka : ℚ) ≤ ((roundHalfEven (x * 100) : ℤ) : ℚ) := by exact_mod_cast hlo
    linarith
  · rw [hb, round2]
    have : ((roundHalfEven (x * 100) : ℤ) : ℚ) ≤ (kb : ℚ) := by exact_mod_cast hhi
    linarith

lemma round2_int_div_100 (k : ℤ) : round2 ((k : ℚ)/100) = (k : ℚ)/100 := by
  have h : ((k : ℚ)/100) * 100 = (k : ℚ) := by field_simp
  rw [round2, h, roundHalfEven]
  simp [Int.floor_intCast]

lemma update_some_spec {pos p1 : ManagedPosition} {l : ℕ} {v : ℚ} {nsl : Option ℚ}
    (h : update_after_partial_close (some pos) l v nsl = some p1) :
    p1.remaining_volume = pos.remaining_volume - v ∧
    p1.initial_volume = pos.initial_volume ∧
    p1.tp_hit_count = max pos.tp_hit_count (l + 1) ∧
    p1.stop_loss = nsl.getD pos.stop_loss ∧
    ¬ pos.remaining_volume - v ≤ 1/1000 := by
  cases nsl with
  | none =>
    simp only [update_after_partial_close, ManagedPosition.mark_tp_hit] at h
    split_ifs at h with hc
    obtain rfl := Option.some.inj h
    exact ⟨rfl, rfl, rfl, rfl, hc⟩
  | some sl =>
    simp only [update_after_partial_close, ManagedPosition.mark_tp_hit] at h
    split_ifs at h with hc
    obtain rfl := Option.some.inj h
    exact ⟨rfl, rfl, rfl, rfl, hc⟩

lemma update_none_iff (pos : ManagedPosition) (l : ℕ) (v : ℚ) (nsl : Option ℚ) :
    update_after_partial_close (some pos) l v nsl = none ↔
      pos.remaining_volume - v ≤ 1/1000 := by
  cases nsl with
  | none =>
    simp only [update_after_partial_close, ManagedPosition.mark_tp_hit]
    split_ifs with hc
    · exact iff_of_true rfl hc
    · exact iff_of_false (by simp) hc
  | some sl =>
    simp only [update_after_partial_close, ManagedPosition.mark_tp_hit]
    split_ifs with hc
    · exact iff_of_true rfl hc
    · exact iff_of_false (by simp) hc

lemma applyCloses_none (ops : List (ℕ × ℚ × Option ℚ)) : applyCloses none ops = none := by
  induction ops with
  | nil => rfl
  | cons op rest ih =>
    rw [applyCloses, List.foldl_cons]
    exact ih

lemma closedSum_cons (op : ℕ × ℚ × Option ℚ) (rest : List (ℕ × ℚ × Option ℚ)) :
    closedSum (op :: rest) = op.2.1 + closedSum rest := by
  simp [closedSum]

lemma applyCloses_spec :
    ∀ (ops : List (ℕ × ℚ × Option ℚ)) (pos p' : ManagedPosition),
      applyCloses (some pos) ops = some p' →
      p'.remaining_volume = pos.remaining_volume - closedSum ops ∧
      p'.initial_volume = pos.initial_volume ∧
      pos.tp_hit_count ≤ p'.tp_hit_count := by
  intro ops
  induction ops with
  | nil =>
    intro pos p' h
    obtain rfl := Option.some.inj h
    simp [closedSum]
  | cons op rest ih =>
    intro pos p' h
    rw [applyCloses, List.foldl_cons] at h
    rcases hu : update_after_partial_close (some pos) op.1 op.2.1 op.2.2 with _ | p1
    · rw [hu] at h
      rw [show List.foldl (fun acc o => update_after_partial_close acc o.1 o.2.1 o.2.2)
            none rest = applyCloses none rest from rfl, applyCloses_none] at h
      cases h
    · rw [hu] at h
      have hrest := ih p1 p' h
      obtain ⟨h1, h2, h3, _, _⟩ := update_some_spec hu
      refine ⟨?_, by rw [hrest.2.1, h2], ?_⟩
      · rw [hrest.1, h1, closedSum_cons]
        ring
      · calc pos.tp_hit_count ≤ max pos.tp_hit_count (op.1 + 1) := le_max_left _ _
        _ = p1.tp_hit_count := h3.symm
        _ ≤ p'.tp_hit_count := hrest.2.2

lemma check_posA_eval : check_tp_hits posA 35 =
    [⟨0, 10, 2/5, some 5⟩, ⟨1, 20, 3/10, some 10⟩, ⟨2, 30, 3/10, none⟩] := by
  norm_num [check_tp_hits, List.enum, List.enumFrom, isHit, posA,
    ManagedPosition.get_volume_for_tp_level, ManagedPosition.get_next_stop_loss,
    ManagedPosition.TP_PERCENTAGES, List.filterMap_cons, List.filterMap_nil]

lemma check_posB_eval : check_tp_hits posB 25 =
    [⟨0, 10, 2/5, some 5⟩, ⟨1, 20, 3/10, some 10⟩] := by
  norm_num [check_tp_hits, List.enum, List.enumFrom, isHit, posB,
    ManagedPosition.get_volume_for_tp_level, ManagedPosition.get_next_stop_loss,
    ManagedPosition.TP_PERCENTAGES, List.filterMap_cons, List.filterMap_nil]

lemma cycle_posB_eval : monitorCycle (some posB) 25 exFail0 = some posB_afterCycle := by
  rw [show monitorCycle (some posB) 25 exFail0 =
        (check_tp_hits posB 25).foldl
          (fun acc act =>
            if exFail0 act.tp_level then
              update_after_partial_close acc act.tp_level act.volume_to_close act.new_sl
            else acc) (some posB) from rfl,
      check_posB_eval]
  norm_num [exFail0, update_after_partial_close, ManagedPosition.mark_tp_hit,
    posB, posB_afterCycle]

lemma check_posB_after_eval : check_tp_hits posB_afterCycle 25 = [] := by
  norm_num [check_tp_hits, List.enum, List.enumFrom, posB_afterCycle]

lemma applyCloses_posB_eval : applyCloses (some posB) opsB = some posB_afterOps := by
  norm_num [applyCloses, opsB, update_after_partial_close,
    ManagedPosition.mark_tp_hit, posB, posB_afterOps, List.foldl]

lemma update_posB_tp0_eval :
    update_after_partial_close (some posB) 0 (2/5) (some 5) = some posB_afterTp0 := by
  norm_num [update_after_partial_close, ManagedPosition.mark_tp_hit, posB, posB_afterTp0]

lemma update_posB_tp0_nosl_eval :
    update_after_partial_close (some posB) 0 (2/5) none = some posB_afterTp0NoSl := by
  norm_num [update_after_partial_close, ManagedPosition.mark_tp_hit, posB, posB_afterTp0NoSl]

lemma size_sigBuy_eval :
    calculate_position_size cfgDefault (some 2682) (some 2670) (1/100) = 1/100 := by
  have habs : |(2682 : ℚ) - 2670| = 12 := by
    rw [show (2682 : ℚ) - 2670 = 12 by norm_num, abs_of_nonneg (by norm_num)]
  norm_num [calculate_position_size, cfgDefault, pip_value_per_lot, habs]
  simpa using round2_int_div_100 1

lemma create_sigBuy_eval (t : ℕ) :
    create_order_from_signal cfgDefault (1/100) sigBuy t = .ok (some (orderBuyAt t)) := by
  have hmin : cfgDefault.min_volume = 1/100 := rfl
  have hmax : cfgDefault.max_volume = 1 := rfl
  rw [create_order_from_signal]
  norm_num [Signal.is_valid, sigBuy, determine_order_type_and_price,
    size_sigBuy_eval, validate_order, hmin, hmax, orderBuyAt, strTake,
    List.filterMap_cons, List.filterMap_nil]

end TelegramChannel

/-! ## Claim theorems -/

namespace TelegramChannel

/-- Claim C1, counterexample: the claim says any take-profit index ≥ 2
closes the entire remaining volume, but the hit emitted at index 2 for the
fresh three-target position `posA` (remaining volume 1) carries
`volume_to_close = 0.30`, the fixed percentage of the original volume, not
the remaining volume. -/
theorem tp_volume_level2_counterexample :
    (⟨2, 30, 3/10, none⟩ : TpAction) ∈ check_tp_hits posA 35 ∧
    posA.get_volume_for_tp_level 2 = 3/10 ∧
    posA.remaining_volume = 1 ∧ ((3 : ℚ)/10) ≠ 1 := by
  refine ⟨?_, ?_, rfl, by norm_num⟩
  · rw [check_posA_eval]
    simp
  · norm_num [ManagedPosition.get_volume_for_tp_level,
      ManagedPosition.TP_PERCENTAGES, posA]

/-- Claim C1, amended: the volume closed at take-profit index k is the
fixed percentage of the ORIGINAL volume for k ∈ {0, 1, 2} (0.40·V, 0.30·V,
0.30·V), and the entire remaining volume for every k ≥ 3. -/
theorem tp_volume_split :
    ∀ pos : ManagedPosition,
      pos.get_volume_for_tp_level 0 = pos.initial_volume * (40/100) ∧
      pos.get_volume_for_tp_level 1 = pos.initial_volume * (30/100) ∧
      pos.get_volume_for_tp_level 2 = pos.initial_volume * (30/100) ∧
      ∀ k : ℕ, pos.get_volume_for_tp_level (k + 3) = pos.remaining_volume := by
  intro pos
  refine ⟨?_, ?_, ?_, ?_⟩ <;>
    simp [ManagedPosition.get_volume_for_tp_level, ManagedPosition.TP_PERCENTAGES]

/-- Claim C2, counterexample: with two unhit targets both reached at price
25, the level-0 close fails and the level-1 close succeeds in the same
cycle; the cycle changes the position state (`tp_hit_count` jumps 0 → 2)
and the next check at the same price emits no action at all, so the failed
level-0 hit is never produced again. -/
theorem failed_lower_tp_skipped_counterexample :
    exFail0 0 = false ∧
    (⟨0, 10, 2/5, some 5⟩ : TpAction) ∈ check_tp_hits posB 25 ∧
    monitorCycle (some posB) 25 exFail0 = some posB_afterCycle ∧
    posB.tp_hit_count = 0 ∧ posB_afterCycle.tp_hit_count = 2 ∧
    check_tp_hits posB_afterCycle 25 = [] := by
  refine ⟨rfl, ?_, cycle_posB_eval, rfl, rfl, check_posB_after_eval⟩
  rw [check_posB_eval]
  simp

/-- Claim C2, amended: when every execution call of a polling cycle reports
failure, the position state is unchanged by that cycle, so the same hits
are emitted again on the next check at the same price; a failed hit at a
lower index CAN however be permanently skipped when a later index succeeds
in the same cycle. -/
theorem cycle_all_failures_state_unchanged :
    ∀ (pos : ManagedPosition) (price : ℚ) (ex : ℕ → Bool),
      (∀ l, ex l = false) → monitorCycle (some pos) price ex = some pos := by
  intro pos price ex hex
  have key : ∀ (acts : List TpAction) (acc : Option ManagedPosition),
      acts.foldl (fun acc act =>
        if ex act.tp_level then
          update_after_partial_close acc act.tp_level act.volume_to_close act.new_sl
        else acc) acc = acc := by
    intro acts
    induction acts with
    | nil => intro acc; rfl
    | cons a l ih =>
      intro acc
      rw [List.foldl_cons]
      simp only [hex a.tp_level, Bool.false_eq_true, if_false]
      exact ih acc
  exact key _ _

/-- Witness for the amended C2 theorem at a concrete position and the
all-failing oracle. -/
theorem cycle_all_failures_state_unchanged_witness :
    monitorCycle (some posB) 25 (fun _ => false) = some posB :=
  cycle_all_failures_state_unchanged posB 25 (fun _ => false) (fun _ => rfl)

/-- Claim C3, counterexample: the claim's cited
`SignalParser._extract_take_profits` does NOT keep the `TP<i> open` case
distinct from the no-label case — both yield `none` at the index (here on
the concrete texts "TP1 open" and "hello"); only the dict parser
`parse_signal` keeps them apart (`some none` vs `none`). -/
theorem services_tp_conflation_counterexample :
    extract_tp_service "TP1 open" 1 = none ∧
    extract_tp_service "hello" 1 = none ∧
    extract_take_profits "TP1 open" = extract_take_profits "hello" ∧
    extract_tp "TP1 open" 1 = some none ∧
    extract_tp "hello" 1 = none := by
  exact ⟨by rfl, by rfl, by rfl, by rfl, by rfl⟩

/-- Claim C3, amended: the dict parser `parse_signal` distinguishes the
three outcomes for every text and index — a numeric entry when a decimal
follows the label, an explicit present-but-null entry (`some none`) for
the literal "open", and an absent entry (`none`) when the search finds no
label, the latter two distinct values; the services-layer
`_extract_take_profits` collapses the distinction: its entry at each index
is the `Option.join` of the dict parser's entry (so "open" and "label not
found" both give `none`), in a list that always carries four entries. -/
theorem tp_entry_distinction_per_extractor :
    (∀ (t : String) (i : ℕ),
       extract_tp t i =
         match tpSearch i (t.data.map normalizeDigitChar) with
         | none => none
         | some g =>
           if g.map Char.toLower = ['o', 'p', 'e', 'n'] then some none
           else some (some (decValue (g.map Char.toLower)))) ∧
    extract_tp "TP1: 2690.5 TP2 open" 1 = some (some (5381/2)) ∧
    extract_tp "TP1: 2690.5 TP2 open" 2 = some none ∧
    extract_tp "TP1: 2690.5 TP2 open" 3 = none ∧
    some (none : Option ℚ) ≠ (none : Option (Option ℚ)) ∧
    (∀ (t : String) (i : ℕ), extract_tp_service t i = (extract_tp t i).join) ∧
    (∀ t : String, (extract_take_profits t).length = 4) := by
  refine ⟨?_, ?_, by rfl, by rfl, by simp, ?_, ?_⟩
  · intro t i
    rw [extract_tp]
  · simp [extract_tp, tpSearch, matchTpAt, matchGroup, isSepChar, isPySpace,
      normalizeDigitChar, decValue, natOfDigits]
    norm_num
  · intro t i
    rcases h : tpSearch i (t.data.map normalizeDigitChar) with _ | g
    · simp [extract_tp_service, extract_tp, h]
    · by_cases ho : g.map Char.toLower = ['o', 'p', 'e', 'n'] <;>
        simp [extract_tp_service, extract_tp, h, ho]
  · intro t
    simp [extract_take_profits]

/-- Claim C4, counterexample: for a parsed signal carrying only a symbol
(no market price, no ranges), `decide_order` does not return none: it
returns a market order whose price is absent, which `main.py` hands
straight to `place_order`. -/
theorem decide_order_priceless_counterexample :
    decide_order parsedBare =
      .ok { symbol := "XAUUSD", type := "market", price := none,
            volume := 1/100, sl := none, tps := [], side := "buy" } := by
  rfl

/-- Claim C4, amended: when no price is derivable (no buy range and no
truthy market price), `decide_order` produces a market order with
`price = none` instead of returning none. -/
theorem decide_order_priceless_market_order :
    ∀ (parsed : ParsedSignal) (sym : String),
      parsed.symbol = some sym → sym ≠ "" →
      parsed.buy_range = none →
      parsed.market_price = none ∨ parsed.market_price = some 0 →
      ∃ o : OrderDict, decide_order parsed = .ok o ∧ o.type = "market" ∧ o.price = none := by
  intro parsed sym hsym hne hbr hm
  simp only [decide_order, hsym, hbr]
  rw [if_neg hne]
  rcases hm with hm | hm <;> rw [hm] <;> exact ⟨_, rfl, rfl, rfl⟩

/-- Witness for the amended C4 theorem at the bare parsed signal. -/
theorem decide_order_priceless_market_order_witness :
    ∃ o : OrderDict, decide_order parsedBare = .ok o ∧
      o.type = "market" ∧ o.price = none :=
  decide_order_priceless_market_order parsedBare "XAUUSD" rfl (by decide) rfl (Or.inl rfl)

/-- Claim C5, counterexample: an order whose price (0.005) and stop-loss
(0) are both present, with gap 0.005 below the 0.01 threshold and volume
inside bounds, still passes `validate_trade` — the zero stop-loss is falsy
in Python, so the tightness check is skipped. -/
theorem validate_trade_zero_sl_counterexample :
    validate_trade cfgDefault orderZeroSl = (true, none) ∧
    orderZeroSl.price = some (1/200) ∧ orderZeroSl.sl = some 0 ∧
    |(1/200 : ℚ) - 0| < 1/100 ∧
    cfgDefault.min_volume ≤ orderZeroSl.volume ∧
    orderZeroSl.volume ≤ cfgDefault.max_volume := by
  refine ⟨?_, rfl, rfl, by rw [sub_zero, abs_of_nonneg (by norm_num)]; norm_num,
    by norm_num [cfgDefault, orderZeroSl], by norm_num [cfgDefault, orderZeroSl]⟩
  norm_num [validate_trade, cfgDefault, orderZeroSl]

/-- Claim C5, amended: `validate_trade` rejects (returns false) whenever
price and stop-loss are both present AND nonzero with |price − stop| below
the 0.01 threshold, and likewise whenever the volume lies outside
[min_volume, max_volume]. -/
theorem validate_trade_rejects :
    (∀ (cfg : RiskConfig) (ord : OrderDict) (p s : ℚ),
       ord.price = some p → ord.sl = some s → p ≠ 0 → s ≠ 0 → |p - s| < 1/100 →
       (validate_trade cfg ord).1 = false) ∧
    (∀ (cfg : RiskConfig) (ord : OrderDict),
       ord.volume < cfg.min_volume ∨ cfg.max_volume < ord.volume →
       (validate_trade cfg ord).1 = false) := by
  constructor
  · intro cfg ord p s hp hs hp0 hs0 hlt
    simp only [validate_trade, hp, hs]
    split_ifs with h1 h2 h3 h4 <;>
      first
        | rfl
        | exact absurd hlt h4
        | exact absurd ⟨hp0, hs0⟩ h3
  · intro cfg ord h
    by_cases hv : ord.volume < cfg.min_volume
    · simp only [validate_trade]
      rw [if_pos hv]
    · simp only [validate_trade]
      rw [if_neg hv, if_pos (h.resolve_left hv)]

/-- Witness for the amended C5 theorem: a tight-stop order and an
over-volume order are both rejected under the default configuration. -/
theorem validate_trade_rejects_witness :
    (validate_trade cfgDefault orderTight).1 = false ∧
    (validate_trade cfgDefault orderBigVolume).1 = false :=
  ⟨validate_trade_rejects.1 cfgDefault orderTight 100 (20001/200) rfl rfl
      (by norm_num) (by norm_num)
      (by rw [abs_sub_comm, abs_of_nonneg (by norm_num)]; norm_num),
   validate_trade_rejects.2 cfgDefault orderBigVolume
      (Or.inr (by norm_num [cfgDefault, orderBigVolume]))⟩

/-- Claim C6: every hit emitted by `check_tp_hits` carries, as new stop,
the entry price at level 0, the price of take-profit index 0 at level 1,
and none at any level ≥ 2; and after a successful partial close the stored
stop-loss equals the emitted value (unchanged when none was emitted). -/
theorem stop_loss_ratchet :
    (∀ (pos : ManagedPosition) (price : ℚ) (a : TpAction),
       a ∈ check_tp_hits pos price →
       (a.tp_level = 0 → a.new_sl = some pos.entry_price) ∧
       (a.tp_level = 1 → ∃ t rest, pos.take_profits = t :: rest ∧ a.new_sl = some t) ∧
       (2 ≤ a.tp_level → a.new_sl = none)) ∧
    (∀ (pos p1 : ManagedPosition) (l : ℕ) (v sl : ℚ),
       update_after_partial_close (some pos) l v (some sl) = some p1 →
       p1.stop_loss = sl) ∧
    (∀ (pos p1 : ManagedPosition) (l : ℕ) (v : ℚ),
       update_after_partial_close (some pos) l v none = some p1 →
       p1.stop_loss = pos.stop_loss) := by
  refine ⟨?_, ?_, ?_⟩
  · intro pos price a ha
    simp only [check_tp_hits, List.mem_filterMap] at ha
    obtain ⟨⟨l, tp⟩, hmem, hf⟩ := ha
    split_ifs at hf with h1 h2
    obtain rfl := Option.some.inj hf
    refine ⟨?_, ?_, ?_⟩
    · intro h0
      simp only at h0
      subst h0
      simp [ManagedPosition.get_next_stop_loss]
    · intro h0
      simp only at h0
      subst h0
      rcases hl : pos.take_profits with _ | ⟨t, rest⟩
      · rw [hl] at hmem
        simp [List.enum] at hmem
      · refine ⟨t, rest, rfl, ?_⟩
        simp [ManagedPosition.get_next_stop_loss, hl]
    · intro h0
      simp only at h0
      have hne0 : l ≠ 0 := by omega
      have hne1 : l ≠ 1 := by omega
      simp [ManagedPosition.get_next_stop_loss, hne0, hne1]
  · intro pos p1 l v sl h
    have := (update_some_spec h).2.2.2.1
    simpa using this
  · intro pos p1 l v h
    have := (update_some_spec h).2.2.2.1
    simpa using this

/-- Witness for C6 at concrete inputs: the level-1 hit of `posB` at price
25 carries the first take-profit as new stop, and the two concrete update
calls store exactly the emitted stop. -/
theorem stop_loss_ratchet_witness :
    (∃ t rest, posB.take_profits = t :: rest ∧
      (⟨1, 20, 3/10, some 10⟩ : TpAction).new_sl = some t) ∧
    posB_afterTp0.stop_loss = 5 ∧
    posB_afterTp0NoSl.stop_loss = posB.stop_loss := by
  refine ⟨?_, ?_, ?_⟩
  · have hmem : (⟨1, 20, 3/10, some 10⟩ : TpAction) ∈ check_tp_hits posB 25 := by
      rw [check_posB_eval]
      simp
    exact (stop_loss_ratchet.1 posB 25 _ hmem).2.1 rfl
  · exact stop_loss_ratchet.2.1 posB posB_afterTp0 0 (2/5) 5 update_posB_tp0_eval
  · exact stop_loss_ratchet.2.2 posB posB_afterTp0NoSl 0 (2/5) update_posB_tp0_nosl_eval

end TelegramChannel

namespace TelegramChannel

/-- Claim C7: position sizing returns exactly the default volume when
entry or stop is missing, when they are equal, or when their distance is
below the 0.0001 epsilon; and for nonzero prices at distance ≥ epsilon the
result is clamped-then-rounded inside [min_volume, max_volume] (for bounds
expressible at the two-decimal lot precision, as the defaults are). -/
theorem position_size_fallback_and_bounds :
    (∀ (cfg : RiskConfig) (pv : ℚ) (s : Option ℚ),
       calculate_position_size cfg none s pv = cfg.default_volume) ∧
    (∀ (cfg : RiskConfig) (pv : ℚ) (e : Option ℚ),
       calculate_position_size cfg e none pv = cfg.default_volume) ∧
    (∀ (cfg : RiskConfig) (pv x : ℚ),
       calculate_position_size cfg (some x) (some x) pv = cfg.default_volume) ∧
    (∀ (cfg : RiskConfig) (pv e s : ℚ), |e - s| < 1/10000 →
       calculate_position_size cfg (some e) (some s) pv = cfg.default_volume) ∧
    (∀ (cfg : RiskConfig) (pv e s : ℚ), e ≠ 0 → s ≠ 0 → 1/10000 ≤ |e - s| →
       cfg.min_volume ≤ cfg.max_volume →
       (∃ a : ℤ, cfg.min_volume = (a : ℚ)/100) →
       (∃ b : ℤ, cfg.max_volume = (b : ℚ)/100) →
       cfg.min_volume ≤ calculate_position_size cfg (some e) (some s) pv ∧
       calculate_position_size cfg (some e) (some s) pv ≤ cfg.max_volume) := by
  refine ⟨?_, ?_, ?_, ?_, ?_⟩
  · intro cfg pv s
    simp [calculate_position_size]
  · intro cfg pv e
    cases e <;> simp [calculate_position_size]
  · intro cfg pv x
    simp [calculate_position_size]
  · intro cfg pv e s hlt
    simp only [calculate_position_size]
    by_cases h0 : e = 0 ∨ s = 0 ∨ e = s
    · rw [if_pos h0]
    · rw [if_neg h0]
      rw [if_pos hlt]
  · intro cfg pv e s he hs hdist hmm hka hkb
    obtain ⟨ka, hka⟩ := hka
    obtain ⟨kb, hkb⟩ := hkb
    have hne : ¬ (e = 0 ∨ s = 0 ∨ e = s) := by
      push_neg
      refine ⟨he, hs, ?_⟩
      intro hes
      rw [hes] at hdist
      simp at hdist
      linarith
    simp only [calculate_position_size]
    rw [if_neg hne]
    rw [if_neg (not_lt.2 hdist)]
    rw [show pip_value_per_lot "XAUUSD" = 10 from rfl]
    rw [if_neg (by norm_num : ¬ (10 : ℚ) ≤ 0)]
    exact round2_mem_of_mem hka hkb (le_max_left _ _)
      (max_le hmm (min_le_left _ _))

/-- Witness for C7: the below-epsilon fallback and the in-bounds result at
concrete prices under the default configuration. -/
theorem position_size_fallback_and_bounds_witness :
    calculate_position_size cfgDefault (some 1) (some (1 + 1/20000)) (1/100) =
      cfgDefault.default_volume ∧
    cfgDefault.min_volume ≤ calculate_position_size cfgDefault (some 2682) (some 2670) (1/100) ∧
    calculate_position_size cfgDefault (some 2682) (some 2670) (1/100) ≤ cfgDefault.max_volume := by
  have habs : |(1 : ℚ) - (1 + 1/20000)| < 1/10000 := by
    rw [abs_sub_comm, show (1 : ℚ) + 1/20000 - 1 = 1/20000 by ring,
      abs_of_nonneg (by norm_num)]
    norm_num
  have habs2 : (1 : ℚ)/10000 ≤ |(2682 : ℚ) - 2670| := by
    rw [show (2682 : ℚ) - 2670 = 12 by norm_num, abs_of_nonneg (by norm_num)]
    norm_num
  refine ⟨position_size_fallback_and_bounds.2.2.2.1 cfgDefault (1/100) 1 (1 + 1/20000) habs, ?_⟩
  exact position_size_fallback_and_bounds.2.2.2.2 cfgDefault (1/100) 2682 2670
    (by norm_num) (by norm_num) habs2 (by norm_num [cfgDefault])
    ⟨1, by norm_num [cfgDefault]⟩ ⟨100, by norm_num [cfgDefault]⟩

/-- Claim C8: under any sequence of partial-close operations, the
remaining volume of a still-tracked position equals the starting remaining
volume (the initial volume, for a fresh position) minus the sum of closed
volumes, the hit counter never decreases, and the position is removed
exactly when the remaining volume falls to within the 0.001-lot
tolerance. -/
theorem position_volume_invariants :
    (∀ (ops : List (ℕ × ℚ × Option ℚ)) (pos p' : ManagedPosition),
       applyCloses (some pos) ops = some p' →
       p'.remaining_volume = pos.remaining_volume - closedSum ops ∧
       p'.initial_volume = pos.initial_volume ∧
       pos.tp_hit_count ≤ p'.tp_hit_count) ∧
    (∀ (pos p' : ManagedPosition) (ops : List (ℕ × ℚ × Option ℚ)),
       pos.remaining_volume = pos.initial_volume →
       applyCloses (some pos) ops = some p' →
       p'.remaining_volume = p'.initial_volume - closedSum ops) ∧
    (∀ (pos : ManagedPosition) (l : ℕ) (v : ℚ) (nsl : Option ℚ),
       update_after_partial_close (some pos) l v nsl = none ↔
         pos.remaining_volume - v ≤ 1/1000) := by
  refine ⟨applyCloses_spec, ?_, update_none_iff⟩
  intro pos p' ops hfresh h
  have hh := applyCloses_spec ops pos p' h
  rw [hh.1, hfresh, ← hh.2.1]

/-- Witness for C8 at a concrete two-operation history of `posB`, plus a
concrete instance of the removal equivalence. -/
theorem position_volume_invariants_witness :
    posB_afterOps.remaining_volume = posB.remaining_volume - closedSum opsB ∧
    posB_afterOps.initial_volume = posB.initial_volume ∧
    posB.tp_hit_count ≤ posB_afterOps.tp_hit_count ∧
    posB_afterOps.remaining_volume = posB_afterOps.initial_volume - closedSum opsB ∧
    (update_after_partial_close (some posB) 0 1 none = none ↔
      posB.remaining_volume - 1 ≤ 1/1000) :=
  ⟨(position_volume_invariants.1 opsB posB posB_afterOps applyCloses_posB_eval).1,
   (position_volume_invariants.1 opsB posB posB_afterOps applyCloses_posB_eval).2.1,
   (position_volume_invariants.1 opsB posB posB_afterOps applyCloses_posB_eval).2.2,
   position_volume_invariants.2.1 posB posB_afterOps opsB rfl applyCloses_posB_eval,
   position_volume_invariants.2.2 posB 0 1 none⟩

/-- Claim C9, counterexample: two calls of `create_order_from_signal` with
identical signal and configuration inputs, made at clock readings 0 and 1,
produce orders that are not equal — the `Order` dataclass stamps the
wall-clock creation time into the order value. -/
theorem create_order_timestamp_counterexample :
    create_order_from_signal cfgDefault (1/100) sigBuy 0 = .ok (some (orderBuyAt 0)) ∧
    create_order_from_signal cfgDefault (1/100) sigBuy 1 = .ok (some (orderBuyAt 1)) ∧
    orderBuyAt 0 ≠ orderBuyAt 1 := by
  refine ⟨create_sigBuy_eval 0, create_sigBuy_eval 1, ?_⟩
  simp [orderBuyAt]

/-- Claim C9, amended: the order decision is deterministic given the clock
reading, and two calls with identical signal and configuration inputs
produce orders equal in every field except the creation timestamp. -/
theorem create_order_deterministic_up_to_timestamp :
    ∀ (cfg : RiskConfig) (pip_size : ℚ) (s : Signal) (t1 t2 : ℕ)
      (o1 o2 : Order),
      create_order_from_signal cfg pip_size s t1 = .ok (some o1) →
      create_order_from_signal cfg pip_size s t2 = .ok (some o2) →
      eraseTimestamp o1 = eraseTimestamp o2 := by
  intro cfg pip_size s t1 t2 o1 o2 h1 h2
  rw [create_order_from_signal] at h1 h2
  by_cases hv : s.is_valid
  · simp only [hv, not_true, if_false, reduceCtorEq] at h1 h2
    split_ifs at h1 h2 with hc
    all_goals try exact Option.noConfusion (Except.ok.inj h1)
    all_goals try exact Option.noConfusion (Except.ok.inj h2)
    split at h1 <;> split at h2 <;>
      first
        | exact Except.noConfusion h1
        | exact Except.noConfusion h2
        | (obtain rfl := Option.some.inj (Except.ok.inj h1)
           obtain rfl := Option.some.inj (Except.ok.inj h2)
           rfl)
  · simp [hv] at h1

/-- Witness for the amended C9 theorem at the concrete buy signal and
clock readings 0 and 1. -/
theorem create_order_deterministic_up_to_timestamp_witness :
    eraseTimestamp (orderBuyAt 0) = eraseTimestamp (orderBuyAt 1) :=
  create_order_deterministic_up_to_timestamp cfgDefault (1/100) sigBuy 0 1
    (orderBuyAt 0) (orderBuyAt 1) (create_sigBuy_eval 0) (create_sigBuy_eval 1)

/-- Claim C10: a numerically zero entry price or zero stop-loss takes the
same fallback path as a missing one — the result is exactly the default
volume, although zero is a present (non-null) value. -/
theorem position_size_zero_treated_as_missing :
    ∀ (cfg : RiskConfig) (pv : ℚ) (o : Option ℚ),
      calculate_position_size cfg (some 0) o pv = cfg.default_volume ∧
      calculate_position_size cfg o (some 0) pv = cfg.default_volume := by
  intro cfg pv o
  cases o <;> simp [calculate_position_size]

end TelegramChannel
